import Mathlib

/-!
Verification of the unit-converter core (`unit_converter.py`).

The Python program is embedded shallowly:

* Python numeric values (`int`/`float`) are modelled by `ExtFloat`: a finite
  rational, NaN, or a signed infinity.  Arithmetic with the finite rational
  constants appearing in the temperature formulas is exact on the finite
  case and propagates NaN/infinity as IEEE-754 does for these operations.
* A Python argument that may fail the `isinstance(value, (int, float))`
  check is modelled by `PyValue`.
* `st.error(...)` followed by `return None` is modelled by `none`; a
  returned number is `some x`.
* The pint dimensional-conversion library is external to the repository;
  `pint_units` / `pint_convert` model it from the spec: a per-unit physical
  dimension and a linear scale factor to a base unit, failing exactly when
  a unit is unrecognized or the dimensions differ.
-/

/-- Model of a Python float/int value: a finite rational, NaN, or ±infinity. -/
inductive ExtFloat where
  | fin (q : ℚ)
  | nan
  | inf
  | neginf
deriving DecidableEq, Repr

/-- Addition of a finite rational constant, with IEEE propagation of
NaN and infinities. -/
def ExtFloat.add : ExtFloat → ℚ → ExtFloat
  | .fin q, c => .fin (q + c)
  | .nan, _ => .nan
  | .inf, _ => .inf
  | .neginf, _ => .neginf

/-- Subtraction of a finite rational constant. -/
def ExtFloat.sub : ExtFloat → ℚ → ExtFloat
  | .fin q, c => .fin (q - c)
  | .nan, _ => .nan
  | .inf, _ => .inf
  | .neginf, _ => .neginf

/-- Multiplication by a positive finite rational constant (the only
multiplications the program performs: 5/9, 9/5 and positive unit scale
ratios), with IEEE propagation. -/
def ExtFloat.mulPos : ExtFloat → ℚ → ExtFloat
  | .fin q, c => .fin (q * c)
  | .nan, _ => .nan
  | .inf, _ => .inf
  | .neginf, _ => .neginf

/-- A Python value passed as `value`: either a number (int/float, including
NaN and infinities, which are `float` instances) or some non-numeric object
that fails `isinstance(value, (int, float))`. -/
inductive PyValue where
  | num (x : ExtFloat)
  | nonNumeric
deriving DecidableEq, Repr

/-- The temperature unit list of `convert_units`
(`["celsius", "fahrenheit", "kelvin", "rankine"]`). -/
def tempUnits : List String := ["celsius", "fahrenheit", "kelvin", "rankine"]

/-- Modelled from the spec: the pint unit registry used on the non-temperature
path, which is external library code not part of this repository.  Each
recognized unit maps to its physical dimension and its linear scale factor to
a base unit of that dimension, per the spec's "explicit per-category table of
linear scale factors relative to one base unit per category".  Electrical
units carry their true pairwise-incompatible physical dimensions.  Currency
codes are absent: per the spec, no exchange-rate data is registered anywhere
in the system, so pint does not recognize them. -/
def pint_units : List (String × String × ℚ) :=
  [("meters", ("length", 1)),
   ("kilometers", ("length", 1000)),
   ("miles", ("length", 1609344/1000)),
   ("feet", ("length", 3048/10000)),
   ("inches", ("length", 254/10000)),
   ("centimeters", ("length", 1/100)),
   ("yards", ("length", 9144/10000)),
   ("nautical_miles", ("length", 1852)),
   ("kilograms", ("weight", 1)),
   ("grams", ("weight", 1/1000)),
   ("pounds", ("weight", 45359237/100000000)),
   ("ounces", ("weight", 45359237/1600000000)),
   ("tons", ("weight", 90718474/100000)),
   ("milligrams", ("weight", 1/1000000)),
   ("seconds", ("time", 1)),
   ("minutes", ("time", 60)),
   ("hours", ("time", 3600)),
   ("days", ("time", 86400)),
   ("weeks", ("time", 604800)),
   ("months", ("time", 2629800)),
   ("years", ("time", 31557600)),
   ("liters", ("volume", 1/1000)),
   ("milliliters", ("volume", 1/1000000)),
   ("gallons", ("volume", 3785411784/1000000000000)),
   ("cubic_meters", ("volume", 1)),
   ("cups", ("volume", 2365882365/10000000000000)),
   ("tablespoons", ("volume", 1478676478125/100000000000000000)),
   ("teaspoons", ("volume", 492892159375/100000000000000000)),
   ("meters_per_second", ("speed", 1)),
   ("kilometers_per_hour", ("speed", 5/18)),
   ("miles_per_hour", ("speed", 44704/100000)),
   ("knots", ("speed", 463/900)),
   ("bytes", ("data", 1)),
   ("kilobytes", ("data", 1000)),
   ("megabytes", ("data", 1000000)),
   ("gigabytes", ("data", 1000000000)),
   ("terabytes", ("data", 1000000000000)),
   ("petabytes", ("data", 1000000000000000)),
   ("hertz", ("frequency", 1)),
   ("kilohertz", ("frequency", 1000)),
   ("megahertz", ("frequency", 1000000)),
   ("gigahertz", ("frequency", 1000000000)),
   ("terahertz", ("frequency", 1000000000000)),
   ("joules", ("energy", 1)),
   ("kilojoules", ("energy", 1000)),
   ("calories", ("energy", 4184/1000)),
   ("kilocalories", ("energy", 4184)),
   ("watt_hours", ("energy", 3600)),
   ("electron_volts", ("energy", 1602176634/10000000000000000000000000000)),
   ("watts", ("power", 1)),
   ("kilowatts", ("power", 1000)),
   ("megawatts", ("power", 1000000)),
   ("horsepower", ("power", 74569987158227022/100000000000000000)),
   ("btu_per_hour", ("power", 105505585262/360000000000)),
   ("square_meters", ("area", 1)),
   ("square_kilometers", ("area", 1000000)),
   ("acres", ("area", 40468564224/10000000)),
   ("hectares", ("area", 10000)),
   ("square_feet", ("area", 9290304/100000000)),
   ("square_yards", ("area", 83612736/100000000)),
   ("square_miles", ("area", 2589988110336/1000000)),
   ("pascals", ("pressure", 1)),
   ("bar", ("pressure", 100000)),
   ("atmospheres", ("pressure", 101325)),
   ("psi", ("pressure", 44482216152605/6451600000)),
   ("torr", ("pressure", 101325/760)),
   ("millibars", ("pressure", 100)),
   ("volts", ("voltage", 1)),
   ("amperes", ("current", 1)),
   ("ohms", ("resistance", 1)),
   ("farads", ("capacitance", 1)),
   ("henries", ("inductance", 1)),
   ("siemens", ("conductance", 1)),
   ("newton_meters", ("torque", 1)),
   ("pound_feet", ("torque", 13558179483314004/10000000000000000)),
   ("kilogram_force_meters", ("torque", 980665/100000)),
   ("kilograms_per_cubic_meter", ("density", 1)),
   ("grams_per_cubic_centimeter", ("density", 1000)),
   ("pounds_per_cubic_foot", ("density", 453592370000/28316846592)),
   ("cubic_meters_per_second", ("airflow", 1)),
   ("cubic_feet_per_minute", ("airflow", 4719474432/10000000000000)),
   ("liters_per_minute", ("airflow", 1/60000))]

/-- Modelled from the spec: `value * ureg(from_unit)` followed by
`.to(to_unit)`.  Succeeds with the linearly rescaled magnitude when both
units are recognized and share a physical dimension; the raised
`DimensionalityError`/`UndefinedUnitError` (caught by the program, which
then returns `None`) is modelled by `none`. -/
def pint_convert (v : ExtFloat) (from_unit to_unit : String) : Option ExtFloat :=
  match List.lookup from_unit pint_units, List.lookup to_unit pint_units with
  | some (d1, a), some (d2, b) =>
      if d1 = d2 then some (v.mulPos (a / b)) else none
  | _, _ => none

/-- Whether pint can convert between the two units: both recognized and of
the same physical dimension. -/
def pint_compatible (from_unit to_unit : String) : Bool :=
  match List.lookup from_unit pint_units, List.lookup to_unit pint_units with
  | some (d1, _), some (d2, _) => d1 == d2
  | _, _ => false

/-- Embedding of `convert_units(value, from_unit, to_unit)`
(unit_converter.py, lines 47-86).  `none` models the `st.error(...); return
None` paths; the numeric constants 273.15 and 459.67 are the exact rationals
27315/100 and 45967/100. -/
def convert_units (value : PyValue) (from_unit to_unit : String) : Option ExtFloat :=
  match value with
  | PyValue.nonNumeric => none
  | PyValue.num v =>
    if from_unit ∈ tempUnits then
      let kelvin : ExtFloat :=
        if from_unit = "celsius" then ExtFloat.add v (27315/100)
        else if from_unit = "fahrenheit" then
          ExtFloat.mulPos (ExtFloat.add v (45967/100)) (5/9)
        else if from_unit = "rankine" then ExtFloat.mulPos v (5/9)
        else v
      if to_unit = "celsius" then some (ExtFloat.sub kelvin (27315/100))
      else if to_unit = "fahrenheit" then
        some (ExtFloat.sub (ExtFloat.mulPos kelvin (9/5)) (45967/100))
      else if to_unit = "rankine" then some (ExtFloat.mulPos kelvin (9/5))
      else some kelvin
    else
      pint_convert v from_unit to_unit

/-- The spec's normalization of a finite value to kelvin:
celsius: k = v + 273.15; fahrenheit: k = (v + 459.67) * 5/9;
rankine: k = v * 5/9; kelvin: identity.  Written from the spec's words, to
be compared with the embedded code. -/
def spec_to_kelvin (u : String) (v : ℚ) : ℚ :=
  if u = "celsius" then v + 27315/100
  else if u = "fahrenheit" then (v + 45967/100) * (5/9)
  else if u = "rankine" then v * (5/9)
  else v

/-- The spec's denormalization from kelvin: celsius: k - 273.15;
fahrenheit: k * 9/5 - 459.67; rankine: k * 9/5; kelvin: identity.
Written from the spec's words, to be compared with the embedded code. -/
def spec_from_kelvin (u : String) (k : ℚ) : ℚ :=
  if u = "celsius" then k - 27315/100
  else if u = "fahrenheit" then k * (9/5) - 45967/100
  else if u = "rankine" then k * (9/5)
  else k

/-- Embedding of the `CATEGORIES` dictionary (unit_converter.py, lines
13-31): category name (with its decorative emoji prefix) to ordered unit
list.  Python dicts preserve insertion order, so a list of pairs. -/
def CATEGORIES : List (String × List String) :=
  [("📏 Length", ["meters", "kilometers", "miles", "feet", "inches", "centimeters", "yards", "nautical_miles"]),
   ("⚖️ Weight", ["kilograms", "grams", "pounds", "ounces", "tons", "milligrams"]),
   ("🌡️ Temperature", ["celsius", "fahrenheit", "kelvin", "rankine"]),
   ("⏰ Time", ["seconds", "minutes", "hours", "days", "weeks", "months", "years"]),
   ("🧊 Volume", ["liters", "milliliters", "gallons", "cubic_meters", "cups", "tablespoons", "teaspoons"]),
   ("🚀 Speed", ["meters_per_second", "kilometers_per_hour", "miles_per_hour", "knots"]),
   ("💾 Data", ["bytes", "kilobytes", "megabytes", "gigabytes", "terabytes", "petabytes"]),
   ("📡 Frequency", ["hertz", "kilohertz", "megahertz", "gigahertz", "terahertz"]),
   ("🔋 Energy", ["joules", "kilojoules", "calories", "kilocalories", "watt_hours", "electron_volts"]),
   ("⚡ Power", ["watts", "kilowatts", "megawatts", "horsepower", "btu_per_hour"]),
   ("📐 Area", ["square_meters", "square_kilometers", "acres", "hectares", "square_feet", "square_yards", "square_miles"]),
   ("🔩 Pressure", ["pascals", "bar", "atmospheres", "psi", "torr", "millibars"]),
   ("🎛️ Electrical", ["volts", "amperes", "ohms", "farads", "henries", "siemens"]),
   ("🌀 Torque", ["newton_meters", "pound_feet", "kilogram_force_meters"]),
   ("📉 Density", ["kilograms_per_cubic_meter", "grams_per_cubic_centimeter", "pounds_per_cubic_foot"]),
   ("💨 Airflow", ["cubic_meters_per_second", "cubic_feet_per_minute", "liters_per_minute"]),
   ("💰 Currency", ["USD", "EUR", "GBP", "JPY", "AUD", "CAD", "CHF", "CNY"])]

/-- Boolean test that `needle` is an initial segment of `hay`
(character lists). -/
def leadsWith : List Char → List Char → Bool
  | [], _ => true
  | _ :: _, [] => false
  | a :: as, b :: bs => a == b && leadsWith as bs

/-- Boolean contiguous-substring test, Python's `needle in hay` on strings
(as character lists). -/
def hasSub (needle : List Char) : List Char → Bool
  | [] => leadsWith needle []
  | c :: t => leadsWith needle (c :: t) || hasSub needle t

/-- The string `needle` occurs as a contiguous substring of `hay`. -/
def IsSubstring (needle hay : String) : Prop :=
  ∃ pre suf : List Char, hay.data = pre ++ needle.data ++ suf

/-- Embedding of the search filter (unit_converter.py, lines 353-359):
`search_query = st.text_input(...).lower()` and the dict comprehension
keeping the categories whose lowercased name, or one of whose lowercased
units, contains the query. -/
def filtered_categories (query : String) : List (String × List String) :=
  let search_query := query.toLower
  CATEGORIES.filter fun kv =>
    hasSub search_query.data kv.1.toLower.data
      || kv.2.any fun u => hasSub search_query.data u.toLower.data

/-- Embedding of a history entry (unit_converter.py, lines 93-99). -/
structure HistoryItem where
  timestamp : String
  value : ExtFloat
  from_unit : String
  to_unit : String
  result : ExtFloat
deriving DecidableEq, Repr

/-- Embedding of `save_conversion_history` (unit_converter.py, lines
88-103) acting on the session history list: `insert(0, item)`, then
`pop()` (drop the last element) when the length exceeds 10. -/
def save_conversion_history (item : HistoryItem) (history : List HistoryItem) :
    List HistoryItem :=
  if (item :: history).length > 10 then (item :: history).dropLast
  else item :: history

/-- Embedding of `toggle_favorite` (unit_converter.py, lines 105-114)
acting on the session favorites set: build the key `from_unit + "->" +
to_unit`; `remove` it when present, `add` it otherwise.  The Python `set`
is modelled by a `Finset String`, whose equality is exactly Python set
equality (extensional membership). -/
def toggle_favorite (from_unit to_unit : String) (favorites : Finset String) :
    Finset String :=
  let conversion_pair := from_unit ++ "->" ++ to_unit
  if conversion_pair ∈ favorites then favorites.erase conversion_pair
  else insert conversion_pair favorites

/-- A concrete history entry used to instantiate the history theorems. -/
def sampleItem : HistoryItem :=
  ⟨"2024-01-01 00:00:00", .fin 1, "meters", "feet", .fin (10000/3048)⟩

/-- `pint_convert` fails (returns `none`) exactly when the two units are not
pint-compatible, independently of the value converted. -/
lemma pint_convert_none_iff (v : ExtFloat) (fu tu : String) :
    pint_convert v fu tu = none ↔ pint_compatible fu tu = false := by
  unfold pint_convert pint_compatible
  rcases h1 : List.lookup fu pint_units with _ | ⟨d1, a⟩ <;>
    rcases h2 : List.lookup tu pint_units with _ | ⟨d2, b⟩ <;>
      simp [h1, h2]

/-- The temperature branch of `convert_units` always returns a value,
whatever the target unit string is. -/
lemma temp_path_some (x : ExtFloat) (fu tu : String) (hfu : fu ∈ tempUnits) :
    convert_units (PyValue.num x) fu tu ≠ none := by
  simp only [convert_units, if_pos hfu]
  by_cases h1 : tu = "celsius" <;> by_cases h2 : tu = "fahrenheit" <;>
    by_cases h3 : tu = "rankine" <;> simp [h1, h2, h3]

/-- Recording an entry on a history of length at most 10 prepends it and
keeps the first 10 elements of the result. -/
lemma save_eq_take (e : HistoryItem) (h : List HistoryItem) (hh : h.length ≤ 10) :
    save_conversion_history e h = (e :: h).take 10 := by
  unfold save_conversion_history
  by_cases hl : (e :: h).length > 10
  · rw [if_pos hl, List.dropLast_eq_take]
    congr 1
    simp only [List.length_cons] at hl ⊢
    omega
  · rw [if_neg hl, eq_comm]
    apply List.take_of_length_le
    simp only [List.length_cons] at hl ⊢
    omega

/-- Truncating the second summand of an append before an outer truncation
to the same length changes nothing. -/
lemma take_append_take {α : Type} (a b : List α) (n : ℕ) :
    (a ++ List.take n b).take n = (a ++ b).take n := by
  rw [List.take_append_eq_append_take, List.take_append_eq_append_take, List.take_take]
  rw [inf_of_le_left (Nat.sub_le n a.length)]

/-- Folding `save_conversion_history` over a list of entries, starting from
a history of length at most 10, yields the 10 most recent entries,
newest first. -/
lemma foldl_save (es : List HistoryItem) : ∀ h : List HistoryItem, h.length ≤ 10 →
    List.foldl (fun acc e => save_conversion_history e acc) h es =
      (es.reverse ++ h).take 10 := by
  induction es with
  | nil => intro h hh; simpa using (List.take_of_length_le hh).symm
  | cons e es ih =>
    intro h hh
    have hlen : (save_conversion_history e h).length ≤ 10 := by
      rw [save_eq_take e h hh, List.length_take]; exact inf_le_left
    rw [List.foldl_cons, ih _ hlen, save_eq_take e h hh, take_append_take]
    simp [List.append_assoc]

/-- An initial-segment test agrees with existence of a completing suffix. -/
lemma leadsWith_iff (n : List Char) : ∀ h, leadsWith n h = true ↔ ∃ suf, h = n ++ suf := by
  induction n with
  | nil => intro h; simp [leadsWith]
  | cons a as ih =>
    intro h
    cases h with
    | nil => simp [leadsWith]
    | cons b bs =>
      simp only [leadsWith, Bool.and_eq_true, beq_iff_eq, ih bs]
      constructor
      · rintro ⟨rfl, suf, rfl⟩
        exact ⟨suf, rfl⟩
      · rintro ⟨suf, heq⟩
        simp only [List.cons_append, List.cons.injEq] at heq
        exact ⟨heq.1.symm, suf, heq.2⟩

/-- The boolean substring test agrees with the existence of a
decomposition into a preceding and a following context. -/
lemma hasSub_iff (n : List Char) : ∀ h, hasSub n h = true ↔ ∃ pre suf, h = pre ++ n ++ suf := by
  intro h
  induction h with
  | nil =>
    simp only [hasSub, leadsWith_iff]
    constructor
    · rintro ⟨suf, heq⟩
      exact ⟨[], suf, by simpa using heq⟩
    · rintro ⟨pre, suf, heq⟩
      rw [eq_comm, List.append_eq_nil, List.append_eq_nil] at heq
      exact ⟨suf, by simp [heq.1.1, heq.1.2, heq.2]⟩
  | cons c t ih =>
    simp only [hasSub, Bool.or_eq_true, leadsWith_iff, ih]
    constructor
    · rintro (⟨suf, heq⟩ | ⟨pre, suf, rfl⟩)
      · exact ⟨[], suf, by simpa using heq⟩
      · exact ⟨c :: pre, suf, rfl⟩
    · rintro ⟨pre, suf, heq⟩
      cases pre with
      | nil => exact Or.inl ⟨suf, by simpa using heq⟩
      | cons p ps =>
        simp only [List.cons_append, List.cons.injEq] at heq
        exact Or.inr ⟨ps, suf, heq.2⟩

/-- C1: for every finite value and every pair of temperature units,
`convert_units` equals the composition of the spec's normalization to
kelvin followed by the spec's denormalization from kelvin. -/
theorem C1_temperature_via_kelvin (q : ℚ) (fu tu : String)
    (hfu : fu ∈ tempUnits) (htu : tu ∈ tempUnits) :
    convert_units (.num (.fin q)) fu tu =
      some (.fin (spec_from_kelvin tu (spec_to_kelvin fu q))) := by
  simp only [tempUnits, List.mem_cons, List.not_mem_nil, or_false] at hfu htu
  rcases hfu with rfl | rfl | rfl | rfl <;> rcases htu with rfl | rfl | rfl | rfl <;>
    norm_num +decide [convert_units, tempUnits, spec_to_kelvin, spec_from_kelvin,
      ExtFloat.add, ExtFloat.sub, ExtFloat.mulPos]

/-- C1, instantiated: converting 0 celsius to fahrenheit goes through the
kelvin normalization/denormalization composition. -/
theorem C1_temperature_via_kelvin_witness :
    ("celsius" ∈ tempUnits) ∧ ("fahrenheit" ∈ tempUnits) ∧
    convert_units (.num (.fin 0)) "celsius" "fahrenheit" =
      some (.fin (spec_from_kelvin "fahrenheit" (spec_to_kelvin "celsius" 0))) :=
  ⟨by decide, by decide,
    C1_temperature_via_kelvin 0 "celsius" "fahrenheit" (by decide) (by decide)⟩

/-- C2 counterexample: celsius and meters belong to different physical
dimensions, yet `convert_units(0, "celsius", "meters")` does not return the
error result (it returns 273.15), refuting the claim that every
cross-dimension pair fails with `IncompatibleUnits`. -/
theorem C2_incompatible_counterexample :
    convert_units (.num (.fin 0)) "celsius" "meters" ≠ none := by
  norm_num +decide [convert_units, tempUnits, ExtFloat.add]

/-- C2 as amended: when `fromUnit` is not a temperature unit, the
conversion fails with the `IncompatibleUnits` error (the `None` result,
with no partial numeric result) whenever the two units belong to different
physical dimensions or either identifier is unrecognized; in particular
`convert(1, "meters", "kilograms")` returns the error. -/
theorem C2_incompatible_amended (v : ExtFloat) (fu tu : String)
    (hfu : fu ∉ tempUnits) (hcompat : pint_compatible fu tu = false) :
    convert_units (PyValue.num v) fu tu = none := by
  simp only [convert_units, if_neg hfu]
  exact (pint_convert_none_iff v fu tu).mpr hcompat

/-- C2 amended, instantiated: `convert(1, "meters", "kilograms")` returns
the error result. -/
theorem C2_incompatible_amended_witness :
    ("meters" ∉ tempUnits) ∧ pint_compatible "meters" "kilograms" = false ∧
    convert_units (.num (.fin 1)) "meters" "kilograms" = none :=
  ⟨by decide, by decide,
    C2_incompatible_amended (.fin 1) "meters" "kilograms" (by decide) (by decide)⟩

/-- C3 counterexample: NaN and infinity are `float` instances, so they pass
the `isinstance(value, (int, float))` validation; the conversion is
attempted and a non-error result is returned, refuting the claim that a
non-finite value fails with `InvalidInput`. -/
theorem C3_invalid_input_counterexample :
    convert_units (.num ExtFloat.nan) "celsius" "fahrenheit" = some ExtFloat.nan ∧
    convert_units (.num ExtFloat.inf) "celsius" "kelvin" = some ExtFloat.inf := by
  constructor <;>
    norm_num +decide [convert_units, tempUnits, ExtFloat.add, ExtFloat.sub, ExtFloat.mulPos]

/-- C3 as amended: `convert_units` fails with `InvalidInput` (returns
`None` before attempting any conversion) exactly when `value` is not a
numeric (`int`/`float`) value; for every numeric value — including NaN and
the infinities — validation passes and whether an error is returned depends
only on the unit pair, never on the value. -/
theorem C3_invalid_input_amended (fu tu : String) :
    convert_units PyValue.nonNumeric fu tu = none ∧
    ∀ x : ExtFloat, (convert_units (PyValue.num x) fu tu = none ↔
      fu ∉ tempUnits ∧ pint_compatible fu tu = false) := by
  refine ⟨rfl, fun x => ?_⟩
  by_cases hfu : fu ∈ tempUnits
  · simp [temp_path_some x fu tu hfu, hfu]
  · simp only [convert_units, if_neg hfu]
    simp [pint_convert_none_iff x fu tu, hfu]

/-- C4: `save_conversion_history` keeps the history length at most 10,
inserts the new entry at the front, trims exactly at the back (the result
is the first 10 elements of the front-inserted list, so when the length
exceeds 10 precisely the oldest entry is evicted); and starting from the
empty history, after recording 15 conversions the history has length 10
and its first element is the 15th (most recently) recorded entry. -/
theorem C4_history_bound (e : HistoryItem) (h es : List HistoryItem)
    (hh : h.length ≤ 10) (hes : es.length = 15) :
    (save_conversion_history e h).length ≤ 10 ∧
    (save_conversion_history e h).head? = some e ∧
    save_conversion_history e h = (e :: h).take 10 ∧
    (List.foldl (fun acc x => save_conversion_history x acc) [] es).length = 10 ∧
    (List.foldl (fun acc x => save_conversion_history x acc) [] es).head? = es.getLast? := by
  have h1 := save_eq_take e h hh
  refine ⟨?_, ?_, h1, ?_, ?_⟩
  · rw [h1, List.length_take]; exact inf_le_left
  · rw [h1, show (10:ℕ) = 9+1 from rfl, List.take_succ_cons, List.head?_cons]
  · rw [foldl_save es [] (by simp), List.append_nil, List.length_take,
      List.length_reverse, hes]
    omega
  · rw [foldl_save es [] (by simp), List.append_nil, List.getLast?_eq_head?_reverse]
    rcases hrev : es.reverse with _ | ⟨x, xs⟩
    · rw [List.reverse_eq_nil_iff] at hrev
      rw [hrev] at hes
      simp at hes
    · rw [show (10:ℕ) = 9+1 from rfl, List.take_succ_cons, List.head?_cons, List.head?_cons]

/-- C4, instantiated: recording a concrete entry on the empty history, and
recording 15 concrete entries in a row. -/
theorem C4_history_bound_witness :
    (([] : List HistoryItem).length ≤ 10) ∧
    ((List.replicate 15 sampleItem).length = 15) ∧
    ((save_conversion_history sampleItem []).length ≤ 10 ∧
     (save_conversion_history sampleItem []).head? = some sampleItem ∧
     save_conversion_history sampleItem [] = (sampleItem :: []).take 10 ∧
     (List.foldl (fun acc x => save_conversion_history x acc) []
        (List.replicate 15 sampleItem)).length = 10 ∧
     (List.foldl (fun acc x => save_conversion_history x acc) []
        (List.replicate 15 sampleItem)).head? = (List.replicate 15 sampleItem).getLast?) :=
  ⟨by decide, by decide,
    C4_history_bound sampleItem [] (List.replicate 15 sampleItem) (by decide) (by decide)⟩

/-- C5: the three known fixed points: 0 celsius is 32 fahrenheit,
100 celsius is 373.15 kelvin, and 32 fahrenheit is 0 celsius. -/
theorem C5_fixed_points :
    convert_units (.num (.fin 0)) "celsius" "fahrenheit" = some (.fin 32) ∧
    convert_units (.num (.fin 100)) "celsius" "kelvin" = some (.fin (37315/100)) ∧
    convert_units (.num (.fin 32)) "fahrenheit" "celsius" = some (.fin 0) := by
  refine ⟨?_, ?_, ?_⟩ <;>
    norm_num +decide [convert_units, tempUnits, ExtFloat.add, ExtFloat.sub, ExtFloat.mulPos]

/-- C6: for every finite value, converting celsius to fahrenheit and back
returns the original value exactly (the model computes with exact rational
arithmetic). -/
theorem C6_celsius_fahrenheit_roundtrip (q : ℚ) :
    (convert_units (.num (.fin q)) "celsius" "fahrenheit").bind
      (fun r => convert_units (.num r) "fahrenheit" "celsius") = some (.fin q) := by
  norm_num +decide [convert_units, tempUnits, ExtFloat.add, ExtFloat.sub,
    ExtFloat.mulPos, Option.bind]
  ring_nf

/-- C7: `toggle_favorite` builds the key `fromUnit ++ "->" ++ toUnit` and
removes it when present, inserts it otherwise; applying it twice with the
same pair returns the favorites set to its initial state. -/
theorem C7_toggle_favorite_involution (s : Finset String) (fu tu : String) :
    toggle_favorite fu tu (toggle_favorite fu tu s) = s ∧
    toggle_favorite fu tu s =
      (if fu ++ "->" ++ tu ∈ s then s.erase (fu ++ "->" ++ tu)
       else insert (fu ++ "->" ++ tu) s) := by
  refine ⟨?_, rfl⟩
  by_cases h : fu ++ "->" ++ tu ∈ s
  · simp only [toggle_favorite, if_pos h, if_neg (Finset.not_mem_erase _ _)]
    exact Finset.insert_erase h
  · simp only [toggle_favorite, if_neg h, if_pos (Finset.mem_insert_self _ _)]
    exact Finset.erase_insert h

/-- C8: after any sequence of `toggle_favorite` operations applied to any
favorites set, every key occurs at most once in the underlying collection
(set semantics is preserved). -/
theorem C8_favorites_no_duplicates (ops : List (String × String))
    (s : Finset String) (k : String) :
    Multiset.count k
      (List.foldl (fun acc p => toggle_favorite p.1 p.2 acc) s ops).val ≤ 1 :=
  Multiset.nodup_iff_count_le_one.mp (Finset.nodup _) k

/-- C9: the catalog search retains a category exactly when it is in the
catalog and the lowercased query occurs as a substring of the lowercased
category name or of some lowercased unit identifier of the category; the
filter never fails and leaves `CATEGORIES` untouched (it is a pure filter
over the static list). -/
theorem C9_search_filter (query : String) (kv : String × List String) :
    kv ∈ filtered_categories query ↔
      kv ∈ CATEGORIES ∧
        (IsSubstring query.toLower kv.1.toLower ∨
          ∃ u, u ∈ kv.2 ∧ IsSubstring query.toLower u.toLower) := by
  unfold filtered_categories IsSubstring
  rw [List.mem_filter]
  simp only [Bool.or_eq_true, List.any_eq_true, hasSub_iff]

/-- C10: with a temperature `fromUnit` and any `toUnit` other than
"celsius", "fahrenheit" or "rankine" — including non-temperature and
unrecognized identifiers — `convert_units` returns (without error) the
kelvin-normalized input, treating the unmatched `toUnit` as kelvin. -/
theorem C10_temperature_fallthrough (q : ℚ) (fu tu : String) (hfu : fu ∈ tempUnits)
    (h1 : tu ≠ "celsius") (h2 : tu ≠ "fahrenheit") (h3 : tu ≠ "rankine") :
    convert_units (.num (.fin q)) fu tu = some (.fin (spec_to_kelvin fu q)) := by
  simp only [tempUnits, List.mem_cons, List.not_mem_nil, or_false] at hfu
  rcases hfu with rfl | rfl | rfl | rfl <;>
    simp +decide [convert_units, tempUnits, spec_to_kelvin, h1, h2, h3,
      ExtFloat.add, ExtFloat.mulPos]

/-- C10, instantiated: `convert(0, "celsius", "meters")` returns 273.15. -/
theorem C10_temperature_fallthrough_witness :
    ("celsius" ∈ tempUnits) ∧
    convert_units (.num (.fin 0)) "celsius" "meters" = some (.fin (27315/100)) :=
  ⟨by decide, by
    rw [C10_temperature_fallthrough 0 "celsius" "meters"
      (by decide) (by decide) (by decide) (by decide)]
    norm_num [spec_to_kelvin]⟩
